import Mathlib

/-!
Verification of the gvtester test-execution engine (src/gvtester.py).

The development shallowly embeds the parts of gvtester.py that the claims
concern: the GPUVerify error-code registry and the REGEX_MISMATCH_ERROR
sentinel computed by `GPUVerifyErrorCodes.static_init`, the test-file
parser `GPUVerifyTestKernel.__init__`, the post-execution bookkeeping of
`GPUVerifyTestKernel.run`, the run comparator `doComparison` together with
`getCanonicalTestName`, the exit-status behaviour of the comparison entry
points, and an interleaving model of the `Worker`/`ThreadPool` machinery.

Machine integers do not overflow in any of the embedded code paths
(exit codes are small), so exit codes are embedded as `Int` and counters
as `Nat`.  Fallible code is embedded with `Except`/`Option`.
-/

namespace GVTester

/-! ## Error-code registry

`gvtester.py` imports `ErrorCodes` from the external `GPUVerify` module,
which is not part of this repository's sources.  The registry below is
therefore modelled from the spec. -/

namespace GPUVerifyErrorCodes

/-- Modelled from the spec: the `GPUVerify.ErrorCodes` class (the
collaborator module is not under src/).  The spec describes it as a fixed
registry mapping error-code names to numeric values; the names are those
referenced by the repository (`SUCCESS`, `CTRL_C` in gvtester.py and the
remaining codes in utils/GPUVerifyRise4Fun/gvapi.py), with sequential
values starting at 0 for `SUCCESS`. -/
def baseCodes : List (String × Int) :=
  [("SUCCESS", 0),
   ("COMMAND_LINE_ERROR", 1),
   ("CLANG_ERROR", 2),
   ("OPT_ERROR", 3),
   ("BUGLE_ERROR", 4),
   ("GPUVERIFYVCGEN_ERROR", 5),
   ("BOOGIE_ERROR", 6),
   ("TIMEOUT", 7),
   ("CTRL_C", 8),
   ("CONFIGURATION_ERROR", 9)]

/-- Numeric value of the `SUCCESS` code. -/
def SUCCESS : Int := 0

/-- Numeric value of the `TIMEOUT` code. -/
def TIMEOUT : Int := 7

/-- Numeric value of the `CTRL_C` code (operator interrupt). -/
def CTRL_C : Int := 8

/-- The largest-code scan of `static_init`: start from the first code and
replace the accumulator whenever a larger code is seen
(`largest=getattr(base,codes[0]); for num in codes: if num > largest: largest=num`). -/
def largestCode (vals : List Int) : Int :=
  vals.foldl (fun acc n => if n > acc then n else acc) (vals.headD 0)

/-- The `REGEX_MISMATCH_ERROR` sentinel assigned by `static_init`:
one past the largest code of the base registry
(`cls.REGEX_MISMATCH_ERROR = largest + 1`). -/
def REGEX_MISMATCH_ERROR : Int :=
  largestCode (baseCodes.map Prod.snd) + 1

/-- The full registry seen on `GPUVerifyErrorCodes` after `static_init`:
the inherited base codes plus the computed sentinel. -/
def allCodes : List (String × Int) :=
  baseCodes ++ [("REGEX_MISMATCH_ERROR", REGEX_MISMATCH_ERROR)]

/-- The reverse mapping `errorCodeToString` built by `static_init`
(`cls.errorCodeToString[num] = string`); the modelled registry has
pairwise distinct values, so it is simply the flipped association list. -/
def errorCodeToString : List (Int × String) :=
  allCodes.map (fun p => (p.2, p.1))

/-- `getValidxfailCodes`: every `(num, name)` pair of `errorCodeToString`
except `SUCCESS` and `REGEX_MISMATCH_ERROR`. -/
def getValidxfailCodes : List (Int × String) :=
  errorCodeToString.filter
    (fun codeTuple =>
      ¬ (codeTuple.1 = SUCCESS ∨ codeTuple.1 = REGEX_MISMATCH_ERROR))

end GPUVerifyErrorCodes

/-- The accumulator of the largest-code scan never decreases. -/
lemma le_foldl_largest :
    ∀ (l : List Int) (a : Int),
      a ≤ l.foldl (fun acc n => if n > acc then n else acc) a := by
  intro l
  induction l with
  | nil => intro a; exact le_refl a
  | cons h t ih =>
    intro a
    refine le_trans ?_ (ih (if h > a then h else a))
    by_cases hc : h > a <;> simp [hc] <;> omega

/-- Every member of a list is bounded by the largest-code scan started
anywhere. -/
lemma mem_le_foldl_largest :
    ∀ (l : List Int) (a c : Int), c ∈ l →
      c ≤ l.foldl (fun acc n => if n > acc then n else acc) a := by
  intro l
  induction l with
  | nil => intro a c hc; cases hc
  | cons h t ih =>
    intro a c hc
    rcases List.mem_cons.mp hc with rfl | hmem
    · refine le_trans ?_ (le_foldl_largest t (if c > a then c else a))
      by_cases hca : c > a <;> simp [hca] <;> omega
    · exact ih (if h > a then h else a) c hmem

/-- Every member of a list is bounded by `largestCode` of that list. -/
lemma mem_le_largestCode (l : List Int) (c : Int) (hc : c ∈ l) :
    c ≤ GPUVerifyErrorCodes.largestCode l :=
  mem_le_foldl_largest l (l.headD 0) c hc

/-! ## String helpers shared by the embedded code -/

/-- First index (from `start`) at which `pat` occurs in the haystack;
models Python `str.index` / `str.find`. -/
def findSubstrAux (pat : List Char) : List Char → Nat → Option Nat
  | [], start => if List.isPrefixOf pat [] then some start else none
  | c :: t, start =>
    if List.isPrefixOf pat (c :: t) then some start
    else findSubstrAux pat t (start + 1)

/-- Index of the first occurrence of `pat` in `hay`
(Python `hay.index(pat)`, with `none` for the `ValueError` case). -/
def strIndex (hay pat : String) : Option Nat :=
  findSubstrAux pat.toList hay.toList 0

/-- ASCII lowercasing of a string (Python `str.lower` on the ASCII
strings that occur in test headers). -/
def strLower (s : String) : String :=
  String.mk (s.toList.map Char.toLower)

/-- Prefix test (Python `str.startswith`). -/
def strStartsWith (s pat : String) : Bool :=
  List.isPrefixOf pat.toList s.toList

/-- Case-insensitive prefix test; models an `re.IGNORECASE` prefix
match of a literal. -/
def startsWithCI (s pat : String) : Bool :=
  strStartsWith (strLower s) (strLower pat)

/-- Splitting at every occurrence of a separator character; models
Python `str.split(sep)` for a one-character separator. -/
def splitOnCharAux (sep : Char) : List Char → List Char → List String
  | [], acc => [String.mk acc.reverse]
  | c :: rest, acc =>
    if c = sep then String.mk acc.reverse :: splitOnCharAux sep rest []
    else splitOnCharAux sep rest (c :: acc)

/-- The lines of a captured output, split at newline characters. -/
def splitLinesNL (s : String) : List String :=
  splitOnCharAux '\n' s.toList []

/-- Replacing every occurrence of a character; models Python
`str.replace` for a one-character pattern. -/
def replaceChar (s : String) (a b : Char) : String :=
  String.mk (s.toList.map (fun c => if c = a then b else c))

/-- The backslash path separator normalised away by
`getCanonicalTestName`. -/
def backslashChar : Char := Char.ofNat 92

/-! ## Test-file parsing (`GPUVerifyTestKernel.__init__`) -/

/-- The data carried by the `KernelParseError` exception. -/
structure KernelParseError where
  lineNumber : Nat
  fileName : String
  message : String
deriving DecidableEq, Repr

/-- Character class of the first-line regex group `([A-Z_]+)` under
`re.IGNORECASE`: upper-case letters, lower-case letters, underscore. -/
def isXfailCodeChar (c : Char) : Bool :=
  c.isUpper || c.isLower || c == '_'

/-- Models `re.match` of `^//(pass|xfail:([A-Z_]+))` with `re.IGNORECASE`
against the first line: `none` when the regex does not match, `some none`
when the `pass` alternative matched (group 2 absent), and
`some (some code)` when the `xfail` alternative matched, where `code` is
`group(2).upper()` as taken by the source. -/
def matchFirstLine (line : String) : Option (Option String) :=
  if startsWithCI line "//pass" then some none
  else if startsWithCI line "//xfail:" then
    let code := (line.toList.drop 8).takeWhile isXfailCodeChar
    if code.isEmpty then none
    else some (some (String.mk (code.map Char.toUpper)))
  else none

/-- First-line parsing of `GPUVerifyTestKernel.__init__`: on a regex
match the `pass` branch stores `SUCCESS`, the `xfail` branch looks the
code name up among `getValidxfailCodes` and stores the matching numeric
code; everything else raises `KernelParseError` at line 1. -/
def parseFirstLine (path line : String) : Except KernelParseError Int :=
  match matchFirstLine line with
  | none =>
    .error ⟨1, path,
      "First Line should say \"//pass\" or \"//xfail:<ERROR_CODE>\""⟩
  | some none => .ok GPUVerifyErrorCodes.SUCCESS
  | some (some codeStr) =>
    match GPUVerifyErrorCodes.getValidxfailCodes.find?
        (fun codeTuple => codeTuple.2 = codeStr) with
    | some codeTuple => .ok codeTuple.1
    | none =>
      .error ⟨1, path,
        "\"" ++ codeStr ++ "\" is not a valid error code for expected fail."⟩

/-- Failure modes of Python `string.Template.substitute`: `KeyError` for
a placeholder absent from the mapping, `ValueError` for a lone or
malformed delimiter. -/
inductive SubstError where
  | keyError (name : String)
  | valueError (msg : String)
deriving DecidableEq, Repr

/-- First character of a `string.Template` identifier
(`idpattern` is a letter-or-underscore first character). -/
def isIdentStart (c : Char) : Bool :=
  c.isAlpha || c == '_'

/-- Subsequent characters of a `string.Template` identifier. -/
def isIdentChar (c : Char) : Bool :=
  c.isAlphanum || c == '_'

/-- Opening brace character (used by the braced placeholder syntax). -/
def lbrace : Char := Char.ofNat 123

/-- Closing brace character. -/
def rbrace : Char := Char.ofNat 125

/-- Scanner mode of the `string.Template` substitution pass: in plain
text, just after a delimiter, inside a bare identifier, or inside a
braced identifier (identifier characters collected in reverse). -/
inductive TmplMode where
  | normal
  | dollar
  | bare (identRev : List Char)
  | braced (identRev : List Char)
deriving DecidableEq, Repr

/-- Resolving one completed placeholder against the substitution
mapping of `GPUVerifyTestKernel.__init__`, which binds only
`KERNEL_DIR`: any other identifier raises `KeyError`. -/
def substResolve (kernelDir : String) (identRev : List Char) :
    Except SubstError (List Char) :=
  let ident := identRev.reverse
  if String.mk ident = "KERNEL_DIR" then .ok kernelDir.toList
  else .error (.keyError (String.mk ident))

/-- Models Python `string.Template(arg).substitute(mapping)` with the
mapping of `GPUVerifyTestKernel.__init__` as a left-to-right scan: a
doubled delimiter escapes itself, a bare identifier extends greedily and
is resolved at its end, a braced identifier must be a well-formed
identifier followed by the closing brace, and a delimiter followed by
neither of these raises `ValueError` exactly as the `invalid` branch of
the `Template` pattern does. -/
def substScan (kernelDir : String) : TmplMode → List Char →
    Except SubstError (List Char)
  | .normal, [] => .ok []
  | .normal, c :: rest =>
    if c = '$' then substScan kernelDir .dollar rest
    else (substScan kernelDir .normal rest).map (fun l => c :: l)
  | .dollar, [] => .error (.valueError "Invalid placeholder in string")
  | .dollar, c :: rest =>
    if c = '$' then (substScan kernelDir .normal rest).map (fun l => '$' :: l)
    else if c = lbrace then substScan kernelDir (.braced []) rest
    else if isIdentStart c then substScan kernelDir (.bare [c]) rest
    else .error (.valueError "Invalid placeholder in string")
  | .bare identRev, [] => substResolve kernelDir identRev
  | .bare identRev, c :: rest =>
    if isIdentChar c then substScan kernelDir (.bare (c :: identRev)) rest
    else
      match substResolve kernelDir identRev with
      | .error e => .error e
      | .ok v =>
        if c = '$' then
          (substScan kernelDir .dollar rest).map (fun l => v ++ l)
        else
          (substScan kernelDir .normal rest).map (fun l => v ++ c :: l)
  | .braced _, [] => .error (.valueError "Invalid placeholder in string")
  | .braced identRev, c :: rest =>
    if identRev.isEmpty then
      if isIdentStart c then substScan kernelDir (.braced [c]) rest
      else .error (.valueError "Invalid placeholder in string")
    else if isIdentChar c then
      substScan kernelDir (.braced (c :: identRev)) rest
    else if c = rbrace then
      match substResolve kernelDir identRev with
      | .error e => .error e
      | .ok v => (substScan kernelDir .normal rest).map (fun l => v ++ l)
    else .error (.valueError "Invalid placeholder in string")

/-- `template.substitute(cmdArgsSubstitution)` on one argument string. -/
def templateSubstitute (kernelDir arg : String) : Except SubstError String :=
  (substScan kernelDir .normal arg.toList).map String.mk

/-- The per-argument substitution step of `GPUVerifyTestKernel.__init__`:
substitution is attempted only when the argument contains a delimiter
(`if self.gpuverifyCmdArgs[index].find('$') != -1`). -/
def substituteArg (kernelDir arg : String) : Except SubstError String :=
  if arg.toList.contains '$' then templateSubstitute kernelDir arg
  else .ok arg

/-- Splitting on whitespace runs with empty fields discarded
(Python `str.split()` with no separator; the preceding `strip()` of the
source is subsumed). -/
def wordsAux : List Char → List Char → List String
  | [], acc => if acc.isEmpty then [] else [String.mk acc.reverse]
  | c :: rest, acc =>
    if c.isWhitespace then
      if acc.isEmpty then wordsAux rest []
      else String.mk acc.reverse :: wordsAux rest []
    else wordsAux rest (c :: acc)

/-- Python `s.strip().split()`. -/
def splitWhitespace (s : String) : List String :=
  wordsAux s.toList []

/-- Models `os.path.dirname` for POSIX paths: everything before the last
path separator, with redundant trailing separators stripped. -/
def dirname (p : String) : String :=
  let cs := p.toList
  let head := (cs.reverse.dropWhile (fun c => c ≠ '/')).reverse
  if head.isEmpty then ""
  else if head.all (fun c => c = '/') then String.mk head
  else String.mk (head.reverse.dropWhile (fun c => c = '/')).reverse

/-- A failure of `GPUVerifyTestKernel.__init__`: either the
`KernelParseError` exception the source raises itself, or an exception
escaping from `string.Template.substitute`. -/
inductive ParseFailure where
  | parseError (e : KernelParseError)
  | substitutionError (e : SubstError)
deriving DecidableEq, Repr

/-- Second-line parsing of `GPUVerifyTestKernel.__init__`: the line must
start with the comment marker (`KernelParseError` at line 2 otherwise),
the remainder is whitespace-split into arguments, each argument
containing a delimiter undergoes variable substitution, and the
engine-managed flag `--use-cvc4` is appended unconditionally. -/
def parseSecondLine (path line : String) :
    Except ParseFailure (List String) :=
  if strStartsWith line "//" = false then
    .error (.parseError ⟨2, path,
      "Second Line should start with \"//\" and then optionally space seperate arguments to pass to GPUVerify"⟩)
  else
    match (splitWhitespace (line.drop 2)).mapM
        (substituteArg (dirname path)) with
    | .error e => .error (.substitutionError e)
    | .ok args => .ok (args ++ ["--use-cvc4"])

/-- The match-rule phase (lines 3 onward) of
`GPUVerifyTestKernel.__init__`: each further line that starts with the
comment marker and is longer than the bare marker registers the text
after the marker as a match-rule pattern with unknown status
(registration skipped when the key is already present, as a dictionary
insert of the same `None` value); a pattern rejected by `re.compile`
raises `KernelParseError` at the current line, aborting the phase with
everything collected so far discarded; the first line that is not such a
comment line ends the phase. -/
def parseRegexLinesAux (regexValid : String → Bool) (path : String) :
    List String → Nat → List (String × Option Bool) →
    Except KernelParseError (List (String × Option Bool))
  | [], _, acc => .ok acc
  | line :: rest, lineCounter, acc =>
    if strStartsWith line "//" ∧ line.length > 2 then
      let key := line.drop 2
      let acc2 :=
        if acc.any (fun rule => rule.1 = key) then acc
        else acc ++ [(key, (none : Option Bool))]
      if regexValid key then
        parseRegexLinesAux regexValid path rest (lineCounter + 1) acc2
      else
        .error ⟨lineCounter, path, "Invalid Regex"⟩
    else .ok acc

/-- The match-rule phase started with line counter 3 and no rules
collected, as in the source. -/
def parseRegexLines (regexValid : String → Bool) (path : String)
    (lines : List String) : Except KernelParseError (List (String × Option Bool)) :=
  parseRegexLinesAux regexValid path lines 3 []

/-- The `GPUVerifyTestKernel` object: the fields populated by
`__init__` plus the result fields populated by `run` (string-initialised
to an unexecuted marker in the source, embedded as `none`). -/
structure GPUVerifyTestKernel where
  path : String
  expectedReturnCode : Int
  gpuverifyCmdArgs : List String
  regex : List (String × Option Bool)
  testPassed : Option Bool := none
  returnedCode : Option Int := none
  gpuverifyReturnCode : Option Int := none
deriving DecidableEq, Repr

/-- Whole-file parsing (`GPUVerifyTestKernel.__init__`), reading the
file as a list of newline-terminated lines; `readline` past the end of
file yields the empty string, which fails the first-line regex and the
second-line marker test and ends the match-rule phase, exactly as the
model's empty-list defaults do.  `regexValid` stands for the external
`re.compile` validity check. -/
def parseTestKernel (regexValid : String → Bool) (path : String)
    (lines : List String) : Except ParseFailure GPUVerifyTestKernel :=
  match parseFirstLine path (lines.headD "") with
  | .error e => .error (.parseError e)
  | .ok expected =>
    match parseSecondLine path ((lines.drop 1).headD "") with
    | .error f => .error f
    | .ok args =>
      match parseRegexLines regexValid path (lines.drop 2) with
      | .error e => .error (.parseError e)
      | .ok rules =>
        .ok { path := path, expectedReturnCode := expected,
              gpuverifyCmdArgs := args, regex := rules }

/-! ## Test execution bookkeeping (`GPUVerifyTestKernel.run`) -/

/-- Models `re.compile(pat, re.MULTILINE).search(output)` for the
fragment of patterns exercised here: a literal string with an optional
leading start-of-line anchor.  Under `re.MULTILINE` a leading caret
matches at the start of any line of the output; without the anchor the
literal may occur anywhere. -/
def reSearchMultiline (pat out : String) : Bool :=
  match pat.toList with
  | '^' :: patRest =>
    (splitLinesNL out).any (fun line => List.isPrefixOf patRest line.toList)
  | _ => (findSubstrAux pat.toList out.toList 0).isSome

/-- `GPUVerifyTestKernel.run`, given the exit code returned by the
GPUVerify subprocess and its captured combined output: the raw code is
recorded as `gpuverifyReturnCode`; the match rules are evaluated against
the output exactly when the raw code equals `expectedReturnCode`;
`returnedCode` is the `REGEX_MISMATCH_ERROR` sentinel when `False`
occurs among the rule statuses and the raw code otherwise; and
`testPassed` records whether `returnedCode` equals
`expectedReturnCode`. -/
def GPUVerifyTestKernel.run (t : GPUVerifyTestKernel) (rawCode : Int)
    (output : String) : GPUVerifyTestKernel :=
  let gvCode := rawCode
  let regexEvaluated :=
    if gvCode = t.expectedReturnCode then
      t.regex.map (fun rule => (rule.1, some (reSearchMultiline rule.1 output)))
    else t.regex
  let returned : Int :=
    if regexEvaluated.any (fun rule => rule.2 = some false) then
      GPUVerifyErrorCodes.REGEX_MISMATCH_ERROR
    else rawCode
  { t with
    gpuverifyReturnCode := some gvCode,
    regex := regexEvaluated,
    returnedCode := some returned,
    testPassed := some (decide (returned = t.expectedReturnCode)) }

/-! ## Run comparison (`getCanonicalTestName`, `doComparison`) -/

/-- `getCanonicalTestName`: keep the path from the first occurrence of
the prefix marker onward and normalise separators; `none` models the
`CanonicalisationError` raised when the marker is absent. -/
def getCanonicalTestName (path marker : String) : Option String :=
  match strIndex path marker with
  | none => none
  | some i => some (replaceChar (String.mk (path.toList.drop i)) backslashChar '/')

/-- The key under which `doComparison` files a test: the canonical name
when it exists, with the raw path as the fallback used by its
`except CanonicalisationError` handler. -/
def canonicalKey (marker path : String) : String :=
  match getCanonicalTestName path marker with
  | some cPath => cPath
  | none => path

/-- Dictionary insert (`testDictionary[cPath] = test`): replace the
value when the key is already present, append otherwise. -/
def dictInsert (d : List (String × GPUVerifyTestKernel)) (k : String)
    (v : GPUVerifyTestKernel) : List (String × GPUVerifyTestKernel) :=
  if d.any (fun e => e.1 = k) then
    d.map (fun e => if e.1 = k then (k, v) else e)
  else d ++ [(k, v)]

/-- Dictionary lookup. -/
def dictLookup (d : List (String × GPUVerifyTestKernel)) (k : String) :
    Option GPUVerifyTestKernel :=
  (d.find? (fun e => e.1 = k)).map Prod.snd

/-- The canonical-path dictionary `doComparison` builds for each run
(later entries with a colliding identity overwrite earlier ones). -/
def buildTestDict (marker : String) (tests : List GPUVerifyTestKernel) :
    List (String × GPUVerifyTestKernel) :=
  tests.foldl (fun d test => dictInsert d (canonicalKey marker test.path) test) []

/-- `changedTestCounter`: entries of the old dictionary whose identity
is also in the new dictionary with a different `testPassed`. -/
def changedTestCounter (oldD newD : List (String × GPUVerifyTestKernel)) : Nat :=
  (oldD.filter (fun e =>
    match dictLookup newD e.1 with
    | some newTest => decide (e.2.testPassed ≠ newTest.testPassed)
    | none => false)).length

/-- `missingTestCounter`: entries of the old dictionary whose identity
is absent from the new dictionary. -/
def missingTestCounter (oldD newD : List (String × GPUVerifyTestKernel)) : Nat :=
  (oldD.filter (fun e => (dictLookup newD e.1).isNone)).length

/-- `newTestCounter`: entries of the new dictionary whose identity is
absent from the old dictionary. -/
def newTestCounter (oldD newD : List (String × GPUVerifyTestKernel)) : Nat :=
  (newD.filter (fun e => (dictLookup oldD e.1).isNone)).length

/-- The `changeIsWorse` flag of `doComparison`: set by a changed entry
whose old `testPassed` is truthy (`if oldTest.testPassed:`), and by
every missing entry. -/
def changeIsWorse (oldD newD : List (String × GPUVerifyTestKernel)) : Bool :=
  oldD.any (fun e =>
    match dictLookup newD e.1 with
    | some newTest =>
      decide (e.2.testPassed ≠ newTest.testPassed) &&
        decide (e.2.testPassed = some true)
    | none => true)

/-- The verdict computation at the end of `doComparison`: 1 when the
change is for the worse, 0 when the changed, missing and new counters
are all zero, and -1 otherwise. -/
def doComparisonDicts (oldD newD : List (String × GPUVerifyTestKernel)) : Int :=
  if changeIsWorse oldD newD then 1
  else if changedTestCounter oldD newD = 0 ∧ missingTestCounter oldD newD = 0 ∧
      newTestCounter oldD newD = 0 then 0
  else -1

/-- `doComparison` on two recorded runs: build the canonical-path
dictionaries, then compare. -/
def doComparison (oldTestList newTestList : List GPUVerifyTestKernel)
    (canonicalPathMarker : String) : Int :=
  doComparisonDicts (buildTestDict canonicalPathMarker oldTestList)
    (buildTestDict canonicalPathMarker newTestList)

/-! ## Process exit statuses of the comparison entry points -/

namespace GPUVerifyTesterErrorCodes

/-- The `enum`-built tester exit codes, in declaration order. -/
def SUCCESS : Int := 0

/-- Exit code for a failed file search. -/
def FILE_SEARCH_ERROR : Int := 1

/-- Exit code for a kernel parse error. -/
def KERNEL_PARSE_ERROR : Int := 2

/-- Exit code for a failed test run. -/
def TEST_FAILED : Int := 3

/-- Exit code for a failed file open. -/
def FILE_OPEN_ERROR : Int := 4

/-- Exit code for a general usage error. -/
def GENERAL_ERROR : Int := 5

end GPUVerifyTesterErrorCodes

/-- The process exit status of the `comparePickleFiles` argparse action
(the `--compare-pickles` entry point): `sys.exit(SUCCESS)` when
`doComparison` returned -1 or 0, `sys.exit(1)` otherwise. -/
def comparePickleFilesExit (oldTestList newTestList : List GPUVerifyTestKernel)
    (canonicalPathMarker : String) : Int :=
  let result := doComparison oldTestList newTestList canonicalPathMarker
  if result = -1 ∨ result = 0 then GPUVerifyTesterErrorCodes.SUCCESS else 1

/-- The tail of `main` for the `--compare-run` entry point: after a
fresh test run, `doComparison(oldTests, ..., tests, ...)` is called with
its return value discarded, and `main` falls through to
`return GPUVerifyTesterErrorCodes.SUCCESS`. -/
def mainExitAfterCompareRun (oldTestList newTestList : List GPUVerifyTestKernel)
    (canonicalPathMarker : String) : Int :=
  let _result := doComparison oldTestList newTestList canonicalPathMarker
  GPUVerifyTesterErrorCodes.SUCCESS

/-! ## The argparse namespace of `main` -/

/-- The destination names of every argument registered on the parser in
`main` (derived by argparse from each `add_argument` call). -/
def mainArgDests : List String :=
  ["directory", "list_xfail_codes", "read_pickle", "compare_pickles",
   "kernel_regex", "log_level", "write_pickle", "canonical_path_prefix",
   "compare_run", "threads", "run_only_pass", "run_only_xfail"]

/-- Attribute access on the parsed `argparse.Namespace`: defined
attributes are readable, any other access raises `AttributeError`. -/
def namespaceGetattr (dests : List String) (attr : String) :
    Except String Unit :=
  if dests.contains attr then .ok () else .error ("AttributeError: " ++ attr)

/-- The `except KernelParseError` handler of the discovery loop in
`main`: after reporting the error it reads `args.stop_on_fail` and, were
the read to succeed, would return `KERNEL_PARSE_ERROR` when the flag is
set; an undefined attribute instead propagates `AttributeError` out of
`main`. -/
def handleKernelParseError : Except String Int :=
  match namespaceGetattr mainArgDests "stop_on_fail" with
  | .error e => .error e
  | .ok _ => .ok GPUVerifyTesterErrorCodes.KERNEL_PARSE_ERROR

/-! ## Worker pool (`Worker.run`, `ThreadPool`)

The pool is embedded as a small-step state machine over explicit
schedules: a schedule is the list of atomic worker actions in the order
the scheduler interleaves them, and a step that is not enabled leaves
the state unchanged.  Test cases are identified by their queue index,
and `rawCode` gives the exit code the external tool returns for each
test. -/

/-- The phase a worker thread of `Worker.run` is in. -/
inductive WorkerState where
  | idle
  | holding (testId : Nat)
  | draining
  | blocked
deriving DecidableEq, Repr

/-- Whether a worker currently holds a dequeued test. -/
def WorkerState.isHolding : WorkerState → Bool
  | .holding _ => true
  | _ => false

/-- The shared state of `ThreadPool`: the pending FIFO queue, the worker
threads, the log of executed test ids, the ids drained without
execution, and the unfinished-task count that `Queue.join`
(`waitForCompletion`) blocks on. -/
structure PoolState where
  queue : List Nat
  workers : List WorkerState
  executed : List Nat
  drained : List Nat
  unfinished : Nat
deriving DecidableEq, Repr

/-- One atomic action of a worker `w`: blocking dequeue, executing the
held test (including `task_done` and the CTRL_C check), or one
iteration of the queue-draining loop. -/
inductive PoolAction where
  | deq (w : Nat)
  | runTest (w : Nat)
  | drainOne (w : Nat)
deriving DecidableEq, Repr

/-- The step function of the pool model.  `deq` hands the queue head to
an idle worker; `runTest` executes the held test, calls `task_done`, and
switches the worker to draining mode when the observed exit code is the
CTRL_C sentinel; `drainOne` removes one queued item without executing it
and calls `task_done` for it, or blocks forever in `get` once the queue
is empty.  Actions that are not enabled leave the state unchanged. -/
def poolStep (rawCode : Nat → Int) (s : PoolState) (a : PoolAction) : PoolState :=
  match a with
  | .deq w =>
    match s.workers.get? w, s.queue with
    | some .idle, t :: rest =>
      { s with queue := rest, workers := s.workers.set w (.holding t) }
    | _, _ => s
  | .runTest w =>
    match s.workers.get? w with
    | some (.holding t) =>
      { s with
        executed := s.executed ++ [t],
        unfinished := s.unfinished - 1,
        workers := s.workers.set w
          (if rawCode t = GPUVerifyErrorCodes.CTRL_C then .draining else .idle) }
    | _ => s
  | .drainOne w =>
    match s.workers.get? w with
    | some .draining =>
      match s.queue with
      | t :: rest =>
        { s with queue := rest, drained := s.drained ++ [t],
                 unfinished := s.unfinished - 1 }
      | [] => { s with workers := s.workers.set w .blocked }
    | _ => s

/-- Running the pool under a schedule of atomic actions. -/
def poolRun (rawCode : Nat → Int) (s : PoolState) (acts : List PoolAction) :
    PoolState :=
  acts.foldl (poolStep rawCode) s

/-- The pool right after `ThreadPool.__init__`, `addTest` for each of
`numTests` tests, and `start`: all tests queued in submission order, all
workers idle, and the unfinished count equal to the number of puts. -/
def initPool (numThreads numTests : Nat) : PoolState :=
  { queue := List.range numTests,
    workers := List.replicate numThreads .idle,
    executed := [], drained := [], unfinished := numTests }

/-! ## Claims -/

/-- Concrete kernel used to witness claim C8. -/
def c8Kernel : GPUVerifyTestKernel :=
  { path := "testsuite/k.cl", expectedReturnCode := 0,
    gpuverifyCmdArgs := ["--use-cvc4"], regex := [("zzz", none)] }

/-- C8: the pattern-mismatch sentinel code, computed at initialisation
as one past the largest registered error code, is never equal to any
registered tool exit code; hence an `outcomeCode` equal to the sentinel
can only arise from a failed match rule, never from the raw tool
result. -/
theorem claim_C8 :
    (∀ (name : String) (c : Int),
      (name, c) ∈ GPUVerifyErrorCodes.baseCodes →
      GPUVerifyErrorCodes.REGEX_MISMATCH_ERROR ≠ c)
    ∧ (∀ (t : GPUVerifyTestKernel) (raw : Int) (out : String),
        raw ≠ GPUVerifyErrorCodes.REGEX_MISMATCH_ERROR →
        (t.run raw out).returnedCode =
          some GPUVerifyErrorCodes.REGEX_MISMATCH_ERROR →
        (t.run raw out).regex.any (fun rule => rule.2 = some false) = true) := by
  constructor
  · intro name c hmem
    have hc : c ∈ GPUVerifyErrorCodes.baseCodes.map Prod.snd :=
      List.mem_map_of_mem Prod.snd hmem
    have hle := mem_le_largestCode (GPUVerifyErrorCodes.baseCodes.map Prod.snd) c hc
    unfold GPUVerifyErrorCodes.REGEX_MISMATCH_ERROR
    omega
  · intro t raw out hraw hret
    simp only [GPUVerifyTestKernel.run] at hret ⊢
    by_cases hany :
        (if raw = t.expectedReturnCode then
          t.regex.map (fun rule => (rule.1, some (reSearchMultiline rule.1 out)))
        else t.regex).any (fun rule => rule.2 = some false) = true
    · exact hany
    · simp only [hany, if_false, Bool.not_eq_true] at hret
      rw [if_neg (by simpa using hany)] at hret
      exact absurd (Option.some.inj hret) hraw

/-- Witness for C8: the sentinel differs from the registered `SUCCESS`
code, and a run whose `returnedCode` is the sentinel has a failed match
rule. -/
theorem claim_C8_witness :
    GPUVerifyErrorCodes.REGEX_MISMATCH_ERROR ≠ GPUVerifyErrorCodes.SUCCESS
    ∧ (c8Kernel.run 0 "out").regex.any (fun rule => rule.2 = some false) = true :=
  ⟨claim_C8.1 "SUCCESS" GPUVerifyErrorCodes.SUCCESS (by decide),
   claim_C8.2 c8Kernel 0 "out" (by decide) (by decide)⟩

/-- C10: in the match-rule phase, a comment line that is the bare
marker `//` registers nothing (in particular no empty pattern) and ends
the phase, so the lines after it are never even examined. -/
theorem claim_C10 :
    (∀ (regexValid : String → Bool) (path : String) (rest : List String)
       (n : Nat) (acc : List (String × Option Bool)),
      parseRegexLinesAux regexValid path ("//" :: rest) n acc = .ok acc)
    ∧ (∀ (regexValid : String → Bool) (path : String) (pre : List String)
       (rest rest2 : List String) (n : Nat) (acc : List (String × Option Bool)),
      parseRegexLinesAux regexValid path (pre ++ "//" :: rest) n acc =
        parseRegexLinesAux regexValid path (pre ++ "//" :: rest2) n acc) := by
  have h1 : ∀ (regexValid : String → Bool) (path : String) (rest : List String)
      (n : Nat) (acc : List (String × Option Bool)),
      parseRegexLinesAux regexValid path ("//" :: rest) n acc = .ok acc := by
    intro regexValid path rest n acc
    simp only [parseRegexLinesAux]
    rw [if_neg (by decide)]
  refine ⟨h1, ?_⟩
  intro regexValid path pre rest rest2 n acc
  induction pre generalizing n acc with
  | nil => rw [List.nil_append, List.nil_append, h1, h1]
  | cons l pre ih =>
    rw [List.cons_append, List.cons_append]
    simp only [parseRegexLinesAux]
    by_cases hl : strStartsWith l "//" ∧ l.length > 2
    · rw [if_pos hl, if_pos hl]
      by_cases hv : regexValid (l.drop 2) = true
      · rw [if_pos hv, if_pos hv, ih]
      · rw [if_neg hv, if_neg hv]
    · rw [if_neg hl, if_neg hl]

/-- C6 (code bug): the `except KernelParseError` handler in `main`
reads `args.stop_on_fail`, but no `--stop-on-fail` argument is ever
registered on the parser, so the read raises `AttributeError` instead of
selecting an abort-or-skip policy. -/
theorem claim_C6 :
    namespaceGetattr mainArgDests "stop_on_fail" =
      .error "AttributeError: stop_on_fail"
    ∧ handleKernelParseError = .error "AttributeError: stop_on_fail"
    ∧ mainArgDests.contains "stop_on_fail" = false := by
  refine ⟨?_, ?_, by decide⟩ <;> rfl

/-- Every error raised by first-line parsing is reported at line 1 of
the parsed file. -/
lemma parseFirstLine_error_fields (path line : String) (e : KernelParseError)
    (he : parseFirstLine path line = .error e) :
    e.lineNumber = 1 ∧ e.fileName = path := by
  unfold parseFirstLine at he
  split at he
  · cases he; exact ⟨rfl, rfl⟩
  · cases he
  · split at he
    · cases he
    · cases he; exact ⟨rfl, rfl⟩

/-- C7: the first line parses to `SUCCESS` when it matches `//pass`
case-insensitively; to the registered numeric code when it matches
`//xfail:` followed by a code name that `getValidxfailCodes` admits; and
in every other case it fails with a `KernelParseError` naming line 1 of
the file: a first line matching neither alternative of the regex fails
outright, a matching line with a code name outside the valid registry
(which excludes `SUCCESS` and the pattern-mismatch sentinel) fails, and
conversely every successful parse arises from one of the two accepted
shapes, so no other first line can succeed. -/
theorem claim_C7 (path line : String) :
    (startsWithCI line "//pass" = true →
      parseFirstLine path line = .ok GPUVerifyErrorCodes.SUCCESS)
    ∧ (∀ (code : String) (v : Int),
        (v, code) ∈ GPUVerifyErrorCodes.getValidxfailCodes →
        parseFirstLine path (String.append "//xfail:" code) = .ok v)
    ∧ (∀ e : KernelParseError, parseFirstLine path line = .error e →
        e.lineNumber = 1 ∧ e.fileName = path)
    ∧ (∀ codeStr : String, matchFirstLine line = some (some codeStr) →
        GPUVerifyErrorCodes.getValidxfailCodes.all
          (fun p => decide (p.2 ≠ codeStr)) = true →
        (parseFirstLine path line).isOk = false)
    ∧ GPUVerifyErrorCodes.getValidxfailCodes.all
        (fun p => decide (p.2 ≠ "SUCCESS" ∧ p.2 ≠ "REGEX_MISMATCH_ERROR")) = true
    ∧ (matchFirstLine line = none →
        parseFirstLine path line = .error ⟨1, path,
          "First Line should say \"//pass\" or \"//xfail:<ERROR_CODE>\""⟩)
    ∧ (∀ c : Int, parseFirstLine path line = .ok c →
        (matchFirstLine line = some none ∧ c = GPUVerifyErrorCodes.SUCCESS)
        ∨ ∃ name, matchFirstLine line = some (some name) ∧
            (c, name) ∈ GPUVerifyErrorCodes.getValidxfailCodes) := by
  refine ⟨?_, ?_, parseFirstLine_error_fields path line, ?_, by decide, ?_, ?_⟩
  · intro hpass
    unfold parseFirstLine matchFirstLine
    rw [if_pos hpass]
  · intro code v hmem
    fin_cases hmem <;> rfl
  · intro codeStr hm hall
    unfold parseFirstLine
    rw [hm]
    rcases hfind : GPUVerifyErrorCodes.getValidxfailCodes.find?
        (fun codeTuple => codeTuple.2 = codeStr) with _ | tu
    · simp [hfind, Except.isOk, Except.toBool]
    · have htu : tu ∈ GPUVerifyErrorCodes.getValidxfailCodes :=
        List.mem_of_find?_eq_some hfind
      have heq : tu.2 = codeStr := by
        have := List.find?_some hfind
        simpa using this
      have := List.all_eq_true.mp hall tu htu
      simp [heq] at this
  · intro hm
    unfold parseFirstLine
    rw [hm]
  · intro c hok
    unfold parseFirstLine at hok
    split at hok
    · cases hok
    · next hm =>
      exact Or.inl ⟨hm, (Except.ok.inj hok).symm⟩
    · next name hm =>
      split at hok
      · next tu hfind =>
        have htu : tu ∈ GPUVerifyErrorCodes.getValidxfailCodes :=
          List.mem_of_find?_eq_some hfind
        have heq : tu.2 = name := by
          have := List.find?_some hfind
          simpa using this
        have hc := Except.ok.inj hok
        refine Or.inr ⟨name, hm, ?_⟩
        rw [← hc, ← heq]
        simpa using htu
      · cases hok

/-- Witness for C7: `//pass` parses to `SUCCESS`, `//xfail:TIMEOUT`
parses to the registered `TIMEOUT` code, and a first line matching
neither form fails with the line-1 error. -/
theorem claim_C7_witness :
    parseFirstLine "k.cl" "//pass" = .ok GPUVerifyErrorCodes.SUCCESS
    ∧ parseFirstLine "k.cl" (String.append "//xfail:" "TIMEOUT") =
        .ok GPUVerifyErrorCodes.TIMEOUT
    ∧ parseFirstLine "k.cl" "garbage" = .error ⟨1, "k.cl",
        "First Line should say \"//pass\" or \"//xfail:<ERROR_CODE>\""⟩ :=
  ⟨(claim_C7 "k.cl" "//pass").1 (by decide),
   (claim_C7 "k.cl" "//pass").2.1 "TIMEOUT" GPUVerifyErrorCodes.TIMEOUT (by decide),
   (claim_C7 "k.cl" "garbage").2.2.2.2.2.1 (by rfl)⟩

/-- Concrete kernel used to witness claim C1. -/
def c1Kernel : GPUVerifyTestKernel :=
  { path := "testsuite/k.cl", expectedReturnCode := 0,
    gpuverifyCmdArgs := ["--use-cvc4"], regex := [("abc", none)] }

/-- C1: the match rules are evaluated (each becoming matched or
unmatched, with a leading start-of-line anchor matching at the start of
any output line) exactly when the raw exit code equals
`expectedReturnCode`, and stay unknown otherwise; `returnedCode` is the
pattern-mismatch sentinel when some rule is unmatched and the raw exit
code otherwise; and `testPassed` holds exactly when `returnedCode`
equals `expectedReturnCode`. -/
theorem claim_C1 (t : GPUVerifyTestKernel) (raw : Int) (out : String)
    (hUnknown : ∀ rule ∈ t.regex, rule.2 = none) :
    (raw = t.expectedReturnCode →
      (t.run raw out).regex =
        t.regex.map (fun rule => (rule.1, some (reSearchMultiline rule.1 out))))
    ∧ (raw ≠ t.expectedReturnCode →
        ∀ rule ∈ (t.run raw out).regex, rule.2 = none)
    ∧ ((t.run raw out).returnedCode =
        some (if (t.run raw out).regex.any (fun rule => rule.2 = some false)
              then GPUVerifyErrorCodes.REGEX_MISMATCH_ERROR else raw))
    ∧ ((t.run raw out).testPassed = some true ↔
        (t.run raw out).returnedCode = some t.expectedReturnCode)
    ∧ (∀ cs : List Char,
        reSearchMultiline (String.mk ('^' :: cs)) out =
          (splitLinesNL out).any (fun line => List.isPrefixOf cs line.toList)) := by
  refine ⟨?_, ?_, ?_, ?_, fun cs => rfl⟩
  · intro h
    simp [GPUVerifyTestKernel.run, h]
  · intro h rule hrule
    simp only [GPUVerifyTestKernel.run, if_neg h] at hrule
    exact hUnknown rule hrule
  · simp [GPUVerifyTestKernel.run]
  · simp only [GPUVerifyTestKernel.run]
    constructor
    · intro h
      have := Option.some.inj h
      simp only [decide_eq_true_eq] at this
      rw [this]
    · intro h
      have := Option.some.inj h
      rw [this]
      simp

/-- Witness for C1: on a kernel with one unknown match rule, expected
code 0 and raw code 0, `testPassed` holds exactly when `returnedCode`
equals the expected code. -/
theorem claim_C1_witness :
    (c1Kernel.run 0 "xx abc yy").testPassed = some true ↔
      (c1Kernel.run 0 "xx abc yy").returnedCode =
        some c1Kernel.expectedReturnCode :=
  (claim_C1 c1Kernel 0 "xx abc yy" (by decide)).2.2.2.1

/-- Old run used for the C4 counterexample: one passing recorded test. -/
def c4OldTests : List GPUVerifyTestKernel :=
  [{ path := "testsuite/a/kernel.cl", expectedReturnCode := 0,
     gpuverifyCmdArgs := ["--use-cvc4"], regex := [],
     testPassed := some true, returnedCode := some 0,
     gpuverifyReturnCode := some 0 }]

/-- New run used for the C4 counterexample: the same test, now
failing. -/
def c4NewTests : List GPUVerifyTestKernel :=
  [{ path := "testsuite/a/kernel.cl", expectedReturnCode := 0,
     gpuverifyCmdArgs := ["--use-cvc4"], regex := [],
     testPassed := some false, returnedCode := some 6,
     gpuverifyReturnCode := some 6 }]

/-- Counterexample to C4: a comparison with verdict regression gives
exit status 1 through the `--compare-pickles` entry point, yet the
`--compare-run` path of `main` discards the verdict and exits with
`SUCCESS`. -/
theorem claim_C4_counterexample :
    doComparison c4OldTests c4NewTests "testsuite" = 1
    ∧ comparePickleFilesExit c4OldTests c4NewTests "testsuite" = 1
    ∧ mainExitAfterCompareRun c4OldTests c4NewTests "testsuite" =
        GPUVerifyTesterErrorCodes.SUCCESS := by
  refine ⟨by decide, by decide, rfl⟩

/-- The comparison verdict is always 1, 0 or -1. -/
lemma doComparison_mem (oldTestList newTestList : List GPUVerifyTestKernel)
    (marker : String) :
    doComparison oldTestList newTestList marker = 1
    ∨ doComparison oldTestList newTestList marker = 0
    ∨ doComparison oldTestList newTestList marker = -1 := by
  unfold doComparison doComparisonDicts
  split
  · exact Or.inl rfl
  · split
    · exact Or.inr (Or.inl rfl)
    · exact Or.inr (Or.inr rfl)

/-- C4 (amended): through the `--compare-pickles` entry point the exit
status is `SUCCESS` exactly for verdicts equal (0) or improvement (-1)
and 1 exactly for the regression verdict; through the `--compare-run`
path of `main`, however, the verdict is discarded and the exit status is
`SUCCESS` regardless. -/
theorem claim_C4 (oldTestList newTestList : List GPUVerifyTestKernel)
    (marker : String) :
    (comparePickleFilesExit oldTestList newTestList marker =
        GPUVerifyTesterErrorCodes.SUCCESS ↔
      doComparison oldTestList newTestList marker = -1
      ∨ doComparison oldTestList newTestList marker = 0)
    ∧ (comparePickleFilesExit oldTestList newTestList marker = 1 ↔
        doComparison oldTestList newTestList marker = 1)
    ∧ mainExitAfterCompareRun oldTestList newTestList marker =
        GPUVerifyTesterErrorCodes.SUCCESS := by
  unfold comparePickleFilesExit mainExitAfterCompareRun
  rcases doComparison_mem oldTestList newTestList marker with h | h | h <;>
    rw [h] <;>
    refine ⟨?_, ?_, rfl⟩ <;>
    simp [GPUVerifyTesterErrorCodes.SUCCESS]

/-- Every failure of second-line parsing is either a `KernelParseError`
reported at line 2 of the parsed file or a substitution error. -/
lemma parseSecondLine_error_shape (path line : String) (f : ParseFailure)
    (hf : parseSecondLine path line = .error f) :
    (∃ e, f = .parseError e ∧ e.lineNumber = 2 ∧ e.fileName = path)
    ∨ ∃ s, f = .substitutionError s := by
  unfold parseSecondLine at hf
  split at hf
  · cases hf; exact Or.inl ⟨_, rfl, rfl, rfl⟩
  · split at hf
    · cases hf; exact Or.inr ⟨_, rfl⟩
    · cases hf

/-- Every failure of the match-rule phase is reported against the
parsed file with the invalid-regex message. -/
lemma parseRegexLinesAux_error_fields (regexValid : String → Bool)
    (path : String) :
    ∀ (lines : List String) (n : Nat) (acc : List (String × Option Bool))
      (e : KernelParseError),
      parseRegexLinesAux regexValid path lines n acc = .error e →
      e.fileName = path ∧ e.message = "Invalid Regex" ∧ n ≤ e.lineNumber := by
  intro lines
  induction lines with
  | nil => intro n acc e he; cases he
  | cons line rest ih =>
    intro n acc e he
    simp only [parseRegexLinesAux] at he
    split at he
    · split at he
      · rcases ih (n + 1) _ e he with ⟨h1, h2, h3⟩
        exact ⟨h1, h2, by omega⟩
      · cases he; exact ⟨rfl, rfl, le_refl n⟩
    · cases he

/-- A well-formed rule-line block followed by an invalid rule makes the
match-rule phase fail with exactly the invalid line's error, whatever
was collected before. -/
lemma parseRegexLinesAux_abort (regexValid : String → Bool)
    (path badLine : String) (rest : List String)
    (hb1 : strStartsWith badLine "//" = true) (hb2 : badLine.length > 2)
    (hb3 : regexValid (badLine.drop 2) = false) :
    ∀ pre : List String,
      (∀ l ∈ pre, strStartsWith l "//" = true ∧ l.length > 2 ∧
        regexValid (l.drop 2) = true) →
      ∀ (n : Nat) (acc : List (String × Option Bool)),
        parseRegexLinesAux regexValid path (pre ++ badLine :: rest) n acc =
          .error ⟨n + pre.length, path, "Invalid Regex"⟩ := by
  intro pre
  induction pre with
  | nil =>
    intro _ n acc
    rw [List.nil_append]
    simp only [parseRegexLinesAux]
    rw [if_pos ⟨hb1, hb2⟩, if_neg (by simp [hb3])]
    rfl
  | cons l pre ih =>
    intro hpre n acc
    rw [List.cons_append]
    simp only [parseRegexLinesAux]
    rcases hpre l (List.mem_cons_self l pre) with ⟨hl1, hl2, hl3⟩
    rw [if_pos ⟨hl1, hl2⟩, if_pos hl3,
      ih (fun x hx => hpre x (List.mem_cons_of_mem l hx)) (n + 1) _]
    simp only [Except.error.injEq, KernelParseError.mk.injEq, List.length_cons,
      and_true, true_and]
    omega

/-- Counterexample to C5: a second-line argument that references an
undefined substitution variable makes the parse fail with a
`string.Template` `KeyError`, which is not a `KernelParseError` and so
carries no line number, path or reason. -/
theorem claim_C5_counterexample :
    parseTestKernel (fun _ => true) "d/kernel.cl"
        ["//pass", "//$UNDEFINED_VAR"] =
      .error (.substitutionError (.keyError "UNDEFINED_VAR")) := by
  rfl

/-- C5 (amended): parsing yields a fully populated kernel object or
fails; a failure is either a `KernelParseError` naming the parsed file
(and its line, by construction of the embedded error values) or an
exception escaping the second-line variable substitution, which is not
a parse error.  Failure is atomic: a regex-phase error at any rule makes
the whole parse return exactly that error, discarding every rule
collected before it, and the error names the offending line. -/
theorem claim_C5 (regexValid : String → Bool) (path : String)
    (lines : List String) :
    ((∃ k, parseTestKernel regexValid path lines = .ok k)
      ∨ (∃ e, parseTestKernel regexValid path lines = .error (.parseError e)
          ∧ e.fileName = path)
      ∨ (∃ s, parseTestKernel regexValid path lines =
          .error (.substitutionError s)))
    ∧ (∀ (c : Int) (args : List String) (e : KernelParseError),
        parseFirstLine path (lines.headD "") = .ok c →
        parseSecondLine path ((lines.drop 1).headD "") = .ok args →
        parseRegexLines regexValid path (lines.drop 2) = .error e →
        parseTestKernel regexValid path lines = .error (.parseError e))
    ∧ (∀ (n : Nat) (acc : List (String × Option Bool))
        (pre : List String) (badLine : String) (rest : List String),
        (∀ l ∈ pre, strStartsWith l "//" = true ∧ l.length > 2 ∧
          regexValid (l.drop 2) = true) →
        strStartsWith badLine "//" = true → badLine.length > 2 →
        regexValid (badLine.drop 2) = false →
        parseRegexLinesAux regexValid path (pre ++ badLine :: rest) n acc =
          .error ⟨n + pre.length, path, "Invalid Regex"⟩) := by
  refine ⟨?_, ?_, ?_⟩
  · unfold parseTestKernel
    rcases h1 : parseFirstLine path (lines.headD "") with e | c
    · exact Or.inr (Or.inl ⟨e, rfl, (parseFirstLine_error_fields _ _ e h1).2⟩)
    · rcases h2 : parseSecondLine path ((lines.drop 1).headD "") with f | args
      · rcases parseSecondLine_error_shape _ _ f h2 with ⟨e, rfl, _, hfn⟩ | ⟨s, rfl⟩
        · exact Or.inr (Or.inl ⟨e, rfl, hfn⟩)
        · exact Or.inr (Or.inr ⟨s, rfl⟩)
      · rcases h3 : parseRegexLines regexValid path (lines.drop 2) with e | rules
        · exact Or.inr (Or.inl ⟨e, rfl,
            (parseRegexLinesAux_error_fields regexValid path _ _ _ e h3).1⟩)
        · exact Or.inl ⟨_, rfl⟩
  · intro c args e h1 h2 h3
    unfold parseTestKernel
    rw [h1, h2, h3]
  · intro n acc pre badLine rest hpre hb1 hb2 hb3
    exact parseRegexLinesAux_abort regexValid path badLine rest
      hb1 hb2 hb3 pre hpre n acc

/-- Validity oracle for the C5 witness: only the pattern `bad` is
rejected. -/
def c5valid (key : String) : Bool := !(key == "bad")

/-- Witness for C5: with one valid rule line before it, an invalid rule
on line 4 aborts the whole match-rule phase with a line-4 error,
discarding the collected rule. -/
theorem claim_C5_witness :
    parseRegexLinesAux c5valid "k.cl" ["//ok1", "//bad", "//ok2"] 3 [] =
      .error ⟨4, "k.cl", "Invalid Regex"⟩ := by
  have h := (claim_C5 c5valid "k.cl" []).2.2 3 [] ["//ok1"] "//bad" ["//ok2"]
    (by decide) (by decide) (by decide) (by decide)
  simpa using h

/-- A filtered list has positive length exactly when some member of the
base list satisfies the filter. -/
lemma length_filter_pos_iff {α : Type} (p : α → Bool) (l : List α) :
    0 < (l.filter p).length ↔ ∃ a ∈ l, p a = true := by
  rw [List.length_pos]
  constructor
  · intro h
    rcases List.exists_mem_of_ne_nil _ h with ⟨a, ha⟩
    exact ⟨a, (List.mem_filter.mp ha).1, (List.mem_filter.mp ha).2⟩
  · rintro ⟨a, ha, hp⟩ hnil
    have := List.mem_filter.mpr ⟨ha, hp⟩
    rw [hnil] at this
    cases this

/-- Every entry of a dictionary insert is either an old entry or the
inserted pair. -/
lemma mem_dictInsert (d : List (String × GPUVerifyTestKernel)) (k : String)
    (v : GPUVerifyTestKernel) :
    ∀ e ∈ dictInsert d k v, e ∈ d ∨ e = (k, v) := by
  intro e he
  unfold dictInsert at he
  split at he
  · rcases List.mem_map.mp he with ⟨a, ha, hae⟩
    by_cases hk : a.1 = k
    · rw [if_pos hk] at hae
      exact Or.inr hae.symm
    · rw [if_neg hk] at hae
      exact Or.inl (hae ▸ ha)
  · rcases List.mem_append.mp he with h | h
    · exact Or.inl h
    · simp at h
      exact Or.inr h

/-- Every value stored in the canonical-path dictionary comes from the
underlying test list. -/
lemma mem_buildTestDict_val (marker : String)
    (tests : List GPUVerifyTestKernel) :
    ∀ e ∈ buildTestDict marker tests, e.2 ∈ tests := by
  have haux : ∀ (l : List GPUVerifyTestKernel)
      (acc : List (String × GPUVerifyTestKernel)),
      (∀ e ∈ acc, e.2 ∈ tests) → (∀ t ∈ l, t ∈ tests) →
      ∀ e ∈ l.foldl
        (fun d test => dictInsert d (canonicalKey marker test.path) test) acc,
        e.2 ∈ tests := by
    intro l
    induction l with
    | nil => intro acc hacc _ e he; exact hacc e he
    | cons t l ih =>
      intro acc hacc hl e he
      refine ih _ ?_ (fun x hx => hl x (List.mem_cons_of_mem t hx)) e he
      intro x hx
      rcases mem_dictInsert acc (canonicalKey marker t.path) t x hx with h | rfl
      · exact hacc x h
      · exact hl t (List.mem_cons_self t l)
  exact haux tests [] (by intro e he; cases he) (fun t ht => ht)

/-- A successful dictionary lookup returns the value of an entry of the
dictionary bearing the looked-up key. -/
lemma dictLookup_some_mem (d : List (String × GPUVerifyTestKernel))
    (k : String) (v : GPUVerifyTestKernel) (h : dictLookup d k = some v) :
    ∃ e ∈ d, e.1 = k ∧ e.2 = v := by
  unfold dictLookup at h
  rcases hf : d.find? (fun e => e.1 = k) with _ | e0
  · rw [hf] at h; cases h
  · rw [hf] at h
    refine ⟨e0, List.mem_of_find?_eq_some hf, ?_, Option.some.inj h⟩
    have := List.find?_some hf
    simpa using this

/-- The worse-change flag holds exactly when some old entry either
changed with a truthy old result or has no counterpart in the new
dictionary. -/
lemma changeIsWorse_iff (oldD newD : List (String × GPUVerifyTestKernel)) :
    changeIsWorse oldD newD = true ↔
      (∃ e ∈ oldD, ∃ tNew, dictLookup newD e.1 = some tNew ∧
        e.2.testPassed ≠ tNew.testPassed ∧ e.2.testPassed = some true)
      ∨ ∃ e ∈ oldD, dictLookup newD e.1 = none := by
  unfold changeIsWorse
  rw [List.any_eq_true]
  constructor
  · rintro ⟨e, he, hpred⟩
    rcases hl : dictLookup newD e.1 with _ | tNew
    · exact Or.inr ⟨e, he, hl⟩
    · rw [hl] at hpred
      simp only [Bool.and_eq_true, decide_eq_true_eq] at hpred
      exact Or.inl ⟨e, he, tNew, hl, hpred.1, hpred.2⟩
  · rintro (⟨e, he, tNew, hl, h1, h2⟩ | ⟨e, he, hl⟩)
    · refine ⟨e, he, ?_⟩
      rw [hl]
      simp only [Bool.and_eq_true, decide_eq_true_eq]
      exact ⟨h1, h2⟩
    · refine ⟨e, he, ?_⟩
      rw [hl]

/-- A set worse-change flag forces a positive changed or missing
counter. -/
lemma changeIsWorse_not_zero (oldD newD : List (String × GPUVerifyTestKernel))
    (h : changeIsWorse oldD newD = true) :
    ¬ (changedTestCounter oldD newD = 0 ∧ missingTestCounter oldD newD = 0) := by
  rintro ⟨hc, hm⟩
  rcases List.any_eq_true.mp h with ⟨e, he, hpred⟩
  rcases hl : dictLookup newD e.1 with _ | tNew
  · have : 0 < missingTestCounter oldD newD := by
      unfold missingTestCounter
      rw [length_filter_pos_iff]
      exact ⟨e, he, by rw [hl]; rfl⟩
    omega
  · rw [hl] at hpred
    simp only [Bool.and_eq_true, decide_eq_true_eq] at hpred
    have : 0 < changedTestCounter oldD newD := by
      unfold changedTestCounter
      rw [length_filter_pos_iff]
      refine ⟨e, he, ?_⟩
      rw [hl]
      simp [hpred.1]
    omega

/-- C2: under runs whose recorded tests were all executed, the
comparison verdict is regression (1) exactly when some identity present
in both dictionaries went from passed to failed or some old identity is
missing from the new dictionary; equal (0) exactly when the changed,
missing and new counters are all zero; improvement (-1) otherwise; and
an old entry is counted as changed exactly when the new dictionary has
its identity with a different passed outcome. -/
theorem claim_C2 (oldTestList newTestList : List GPUVerifyTestKernel)
    (marker : String)
    (hOld : ∀ t ∈ oldTestList, t.testPassed.isSome = true)
    (hNew : ∀ t ∈ newTestList, t.testPassed.isSome = true) :
    (doComparison oldTestList newTestList marker = 1 ↔
      (∃ e ∈ buildTestDict marker oldTestList, ∃ tNew,
        dictLookup (buildTestDict marker newTestList) e.1 = some tNew ∧
        e.2.testPassed = some true ∧ tNew.testPassed = some false)
      ∨ ∃ e ∈ buildTestDict marker oldTestList,
          dictLookup (buildTestDict marker newTestList) e.1 = none)
    ∧ (doComparison oldTestList newTestList marker = 0 ↔
        changedTestCounter (buildTestDict marker oldTestList)
          (buildTestDict marker newTestList) = 0
        ∧ missingTestCounter (buildTestDict marker oldTestList)
            (buildTestDict marker newTestList) = 0
        ∧ newTestCounter (buildTestDict marker oldTestList)
            (buildTestDict marker newTestList) = 0)
    ∧ (∀ e ∈ buildTestDict marker oldTestList,
        (0 < changedTestCounter [e] (buildTestDict marker newTestList) ↔
          ∃ tNew, dictLookup (buildTestDict marker newTestList) e.1 = some tNew ∧
            e.2.testPassed ≠ tNew.testPassed)) := by
  have hworse : changeIsWorse (buildTestDict marker oldTestList)
      (buildTestDict marker newTestList) = true ↔
      (∃ e ∈ buildTestDict marker oldTestList, ∃ tNew,
        dictLookup (buildTestDict marker newTestList) e.1 = some tNew ∧
        e.2.testPassed = some true ∧ tNew.testPassed = some false)
      ∨ ∃ e ∈ buildTestDict marker oldTestList,
          dictLookup (buildTestDict marker newTestList) e.1 = none := by
    rw [changeIsWorse_iff]
    constructor
    · rintro (⟨e, he, tNew, hl, hne, htrue⟩ | h)
      · rcases dictLookup_some_mem _ _ _ hl with ⟨e2, he2, _, hv⟩
        have hNsome : tNew.testPassed.isSome = true :=
          hNew tNew (hv ▸ mem_buildTestDict_val marker newTestList e2 he2)
        rcases hb : tNew.testPassed with _ | b
        · rw [hb] at hNsome; cases hNsome
        · cases b
          · exact Or.inl ⟨e, he, tNew, hl, htrue, hb⟩
          · rw [htrue, hb] at hne; exact absurd rfl hne
      · exact Or.inr h
    · rintro (⟨e, he, tNew, hl, htrue, hfalse⟩ | h)
      · exact Or.inl ⟨e, he, tNew, hl, by rw [htrue, hfalse]; simp, htrue⟩
      · exact Or.inr h
  refine ⟨?_, ?_, ?_⟩
  · rw [← hworse]
    unfold doComparison doComparisonDicts
    constructor
    · intro h
      by_contra hn
      rw [Bool.not_eq_true] at hn
      rw [if_neg (by simp [hn])] at h
      split at h
      · cases h
      · cases h
    · intro h
      rw [if_pos h]
  · unfold doComparison doComparisonDicts
    constructor
    · intro h
      rcases hw : changeIsWorse (buildTestDict marker oldTestList)
          (buildTestDict marker newTestList) with _ | _
      · rw [if_neg (by simp [hw])] at h
        split at h
        · assumption
        · cases h
      · rw [if_pos hw] at h
        cases h
    · rintro ⟨hc, hm, hn⟩
      have hw : changeIsWorse (buildTestDict marker oldTestList)
          (buildTestDict marker newTestList) = false := by
        by_contra hx
        rw [Bool.not_eq_false] at hx
        exact changeIsWorse_not_zero _ _ hx ⟨hc, hm⟩
      rw [if_neg (by simp [hw]), if_pos ⟨hc, hm, hn⟩]
  · intro e _
    unfold changedTestCounter
    rw [length_filter_pos_iff]
    constructor
    · rintro ⟨a, ha, hp⟩
      simp only [List.mem_singleton] at ha
      subst ha
      rcases hl : dictLookup (buildTestDict marker newTestList) a.1 with _ | tNew
      · rw [hl] at hp; cases hp
      · rw [hl] at hp
        simp only [decide_eq_true_eq] at hp
        exact ⟨tNew, rfl, hp⟩
    · rintro ⟨tNew, hl, hne⟩
      refine ⟨e, List.mem_singleton.mpr rfl, ?_⟩
      rw [hl]
      simpa using hne

/-- Identical old run used to witness C2 and C3. -/
def c2Tests : List GPUVerifyTestKernel :=
  [{ path := "testsuite/a/kernel.cl", expectedReturnCode := 0,
     gpuverifyCmdArgs := ["--use-cvc4"], regex := [],
     testPassed := some true, returnedCode := some 0,
     gpuverifyReturnCode := some 0 }]

/-- Witness for C2: comparing a recorded run with itself yields the
equal verdict. -/
theorem claim_C2_witness : doComparison c2Tests c2Tests "testsuite" = 0 :=
  (claim_C2 c2Tests c2Tests "testsuite" (by decide) (by decide)).2.1.mpr
    (by decide)

/-- Presence of a key among the entries equals presence in the key
sequence. -/
lemma any_key_eq_any_map (d : List (String × GPUVerifyTestKernel)) (k : String) :
    d.any (fun e => e.1 = k) = (d.map Prod.fst).any (fun x => x = k) := by
  induction d with
  | nil => rfl
  | cons a d ih => simp [List.any_cons, ih]

/-- Inserting into the dictionary leaves the key sequence unchanged
when the key is present and appends it otherwise. -/
lemma dictInsert_keys (d : List (String × GPUVerifyTestKernel)) (k : String)
    (v : GPUVerifyTestKernel) :
    (dictInsert d k v).map Prod.fst =
      if d.any (fun e => e.1 = k) then d.map Prod.fst
      else d.map Prod.fst ++ [k] := by
  unfold dictInsert
  split
  · rw [List.map_map]
    refine List.map_congr_left ?_
    intro e _
    by_cases hk : e.1 = k
    · simp [hk]
    · simp [hk]
  · rw [List.map_append]
    rfl

/-- The key sequence of the canonical-path dictionary depends only on
the paths of the recorded tests, not on their results. -/
lemma buildTestDict_keys_eq (m : String) :
    ∀ (l1 l2 : List GPUVerifyTestKernel)
      (acc1 acc2 : List (String × GPUVerifyTestKernel)),
      acc1.map Prod.fst = acc2.map Prod.fst →
      l1.map GPUVerifyTestKernel.path = l2.map GPUVerifyTestKernel.path →
      (l1.foldl (fun d t => dictInsert d (canonicalKey m t.path) t) acc1).map
          Prod.fst =
        (l2.foldl (fun d t => dictInsert d (canonicalKey m t.path) t) acc2).map
          Prod.fst := by
  intro l1
  induction l1 with
  | nil =>
    intro l2 acc1 acc2 hacc hpaths
    cases l2 with
    | nil => exact hacc
    | cons t2 l2 => cases hpaths
  | cons t1 l1 ih =>
    intro l2 acc1 acc2 hacc hpaths
    cases l2 with
    | nil => cases hpaths
    | cons t2 l2 =>
      simp only [List.map_cons, List.cons.injEq] at hpaths
      simp only [List.foldl_cons]
      refine ih l2 _ _ ?_ hpaths.2
      rw [dictInsert_keys, dictInsert_keys, hpaths.1]
      have hany : acc1.any (fun e => e.1 = canonicalKey m t2.path) =
          acc2.any (fun e => e.1 = canonicalKey m t2.path) := by
        rw [any_key_eq_any_map, any_key_eq_any_map, hacc]
      rw [hany, hacc]

/-- The key sequences of the dictionaries of two runs with the same
paths coincide. -/
lemma buildTestDict_keys (m : String) (l1 l2 : List GPUVerifyTestKernel)
    (hpaths : l1.map GPUVerifyTestKernel.path = l2.map GPUVerifyTestKernel.path) :
    (buildTestDict m l1).map Prod.fst = (buildTestDict m l2).map Prod.fst := by
  unfold buildTestDict
  exact buildTestDict_keys_eq m l1 l2 [] [] rfl hpaths

/-- The missing counter is a count over the key sequence of the old
dictionary. -/
lemma missingTestCounter_eq_keys (oldD newD : List (String × GPUVerifyTestKernel)) :
    missingTestCounter oldD newD =
      (oldD.map Prod.fst).countP (fun k => (dictLookup newD k).isNone) := by
  unfold missingTestCounter
  rw [← List.countP_eq_length_filter, List.countP_map]
  rfl

/-- Old run for the C3 counterexample: a single test that failed. -/
def c3FailedOld : List GPUVerifyTestKernel :=
  [{ path := "testsuite/b/kernel.cl", expectedReturnCode := 0,
     gpuverifyCmdArgs := ["--use-cvc4"], regex := [],
     testPassed := some false, returnedCode := some 6,
     gpuverifyReturnCode := some 6 }]

/-- The same single-test run with the test recorded as passing, used to
witness that the missing counter ignores the result. -/
def c3PassingOld : List GPUVerifyTestKernel :=
  [{ path := "testsuite/b/kernel.cl", expectedReturnCode := 0,
     gpuverifyCmdArgs := ["--use-cvc4"], regex := [],
     testPassed := some true, returnedCode := some 0,
     gpuverifyReturnCode := some 0 }]

/-- Counterexample to C3: an old test that failed and is absent from
the new record still produces a missing entry (the source counts every
absent old identity, with no check of `oldTest.testPassed` in the
`else` branch). -/
theorem claim_C3_counterexample :
    c3FailedOld.map GPUVerifyTestKernel.testPassed = [some false]
    ∧ buildTestDict "testsuite" ([] : List GPUVerifyTestKernel) = []
    ∧ missingTestCounter (buildTestDict "testsuite" c3FailedOld)
        (buildTestDict "testsuite" ([] : List GPUVerifyTestKernel)) = 1 :=
  ⟨rfl, rfl, rfl⟩

/-- C3 (amended): a missing entry is recorded for each old identity not
present in the new record at all, regardless of whether the old test
passed or failed: the missing counter is unchanged under any change of
the recorded results that keeps the paths, and it is positive exactly
when some old identity is absent from the new dictionary. -/
theorem claim_C3 (old1 old2 newTestList : List GPUVerifyTestKernel)
    (marker : String)
    (hpaths : old1.map GPUVerifyTestKernel.path =
      old2.map GPUVerifyTestKernel.path) :
    missingTestCounter (buildTestDict marker old1)
        (buildTestDict marker newTestList) =
      missingTestCounter (buildTestDict marker old2)
        (buildTestDict marker newTestList)
    ∧ (0 < missingTestCounter (buildTestDict marker old1)
          (buildTestDict marker newTestList) ↔
        ∃ e ∈ buildTestDict marker old1,
          dictLookup (buildTestDict marker newTestList) e.1 = none) := by
  constructor
  · rw [missingTestCounter_eq_keys, missingTestCounter_eq_keys,
      buildTestDict_keys marker old1 old2 hpaths]
  · unfold missingTestCounter
    rw [length_filter_pos_iff]
    constructor
    · rintro ⟨e, he, hp⟩
      exact ⟨e, he, Option.isNone_iff_eq_none.mp hp⟩
    · rintro ⟨e, he, hp⟩
      exact ⟨e, he, Option.isNone_iff_eq_none.mpr hp⟩

/-- Witness for C3: with the same path recorded as failed or as passed,
the missing counter against an empty new run is the same. -/
theorem claim_C3_witness :
    missingTestCounter (buildTestDict "testsuite" c3FailedOld)
        (buildTestDict "testsuite" ([] : List GPUVerifyTestKernel)) =
      missingTestCounter (buildTestDict "testsuite" c3PassingOld)
        (buildTestDict "testsuite" ([] : List GPUVerifyTestKernel)) :=
  (claim_C3 c3FailedOld c3PassingOld [] "testsuite" (by decide)).1

/-! ## Pool invariants -/

/-- Whether a worker holds precisely test `t`. -/
def holdsTest (t : Nat) (ws : WorkerState) : Bool :=
  ws = WorkerState.holding t

/-- How many copies of test `t` the pool owns, across the queue, the
workers' hands, the execution log and the drain log. -/
def ownership (s : PoolState) (t : Nat) : Nat :=
  s.queue.count t + s.workers.countP (holdsTest t) +
    s.executed.count t + s.drained.count t

/-- Updating one position shifts a `countP` by the predicate values of
the old and new entries. -/
lemma countP_set {α : Type} (p : α → Bool) :
    ∀ (l : List α) (i : Nat) (x d : α), i < l.length →
      (l.set i x).countP p + (if p (l.getD i d) then 1 else 0) =
        l.countP p + (if p x then 1 else 0) := by
  intro l
  induction l with
  | nil => intro i x d h; simp at h
  | cons a tl ih =>
    intro i x d h
    cases i with
    | zero =>
      simp only [List.set_cons_zero, List.countP_cons, List.getD_cons_zero]
      exact Nat.add_right_comm _ _ _
    | succ i =>
      have hrec := ih i x d (Nat.lt_of_succ_lt_succ h)
      simp only [List.set_cons_succ, List.countP_cons, List.getD_cons_succ]
      rw [Nat.add_right_comm ((tl.set i x).countP p)
        (if p a then 1 else 0) (if p (tl.getD i d) then 1 else 0), hrec,
        Nat.add_right_comm]

/-- A successful indexed read is within bounds. -/
lemma get?_some_lt {α : Type} (l : List α) (i : Nat) (x : α)
    (h : l.get? i = some x) : i < l.length := by
  rcases List.get?_eq_some.mp h with ⟨hlt, _⟩
  exact hlt

/-- A successful indexed read fixes `getD`. -/
lemma getD_of_get?_some {α : Type} (l : List α) (i : Nat) (x d : α)
    (h : l.get? i = some x) : l.getD i d = x := by
  rw [List.getD_eq_getElem?_getD, ← List.get?_eq_getElem?, h]
  rfl

/-- Every pool step preserves the per-test ownership count: dequeuing
moves a copy from the queue to a worker's hand, running moves it from
the hand to the execution log, draining moves it from the queue to the
drain log. -/
lemma ownership_poolStep (rawCode : Nat → Int) (s : PoolState)
    (a : PoolAction) (t : Nat) :
    ownership (poolStep rawCode s a) t = ownership s t := by
  cases a with
  | deq w =>
    simp only [poolStep]
    split
    · next t0 rest hw hq =>
      have hlen := get?_some_lt _ _ _ hw
      have hset := countP_set (holdsTest t) s.workers w (.holding t0) .idle hlen
      rw [getD_of_get?_some _ _ _ _ hw] at hset
      have hidle : holdsTest t WorkerState.idle = false := by simp [holdsTest]
      rw [hidle] at hset
      simp only [ownership, hq, List.count_cons]
      by_cases ht : t0 = t
      · subst ht
        have hh : holdsTest t0 (WorkerState.holding t0) = true := by
          simp [holdsTest]
        rw [hh] at hset
        simp at hset ⊢
        omega
      · have hh : holdsTest t (WorkerState.holding t0) = false := by
          simp [holdsTest, ht]
        rw [hh] at hset
        simp at hset
        simp [ht, List.count_cons, List.count_nil]
        omega
    · rfl
  | runTest w =>
    simp only [poolStep]
    split
    · next t0 hw =>
      have hlen := get?_some_lt _ _ _ hw
      have hset := countP_set (holdsTest t) s.workers w
        (if rawCode t0 = GPUVerifyErrorCodes.CTRL_C then .draining else .idle)
        (.holding t0) hlen
      rw [getD_of_get?_some _ _ _ _ hw] at hset
      have hnew : holdsTest t
          (if rawCode t0 = GPUVerifyErrorCodes.CTRL_C then
            WorkerState.draining else WorkerState.idle) = false := by
        by_cases hc : rawCode t0 = GPUVerifyErrorCodes.CTRL_C <;>
          simp [hc, holdsTest]
      rw [hnew] at hset
      simp only [ownership, List.count_append]
      by_cases ht : t0 = t
      · subst ht
        have hh : holdsTest t0 (WorkerState.holding t0) = true := by
          simp [holdsTest]
        rw [hh] at hset
        simp at hset ⊢
        omega
      · have hh : holdsTest t (WorkerState.holding t0) = false := by
          simp [holdsTest, ht]
        rw [hh] at hset
        simp at hset
        simp [ht, List.count_cons, List.count_nil]
        omega
    · rfl
  | drainOne w =>
    simp only [poolStep]
    split
    · next hw =>
      split
      · next t0 rest hq =>
        simp only [ownership, hq, List.count_cons, List.count_append,
          List.count_nil]
        by_cases ht : t0 = t
        · subst ht
          simp
          omega
        · simp [ht]
      · next hq =>
        have hlen := get?_some_lt _ _ _ hw
        have hset := countP_set (holdsTest t) s.workers w .blocked .draining hlen
        rw [getD_of_get?_some _ _ _ _ hw] at hset
        have h1 : holdsTest t WorkerState.blocked = false := by simp [holdsTest]
        have h2 : holdsTest t WorkerState.draining = false := by simp [holdsTest]
        rw [h1, h2] at hset
        simp at hset
        simp only [ownership]
        omega
    · rfl

/-- The unfinished-task count that `Queue.join` watches equals the
pending queue length plus the number of workers holding a dequeued
test: every `put` was matched by a `get` plus `task_done` except for
the queued and in-hand items. -/
def PoolInv (s : PoolState) : Prop :=
  s.unfinished = s.queue.length + s.workers.countP WorkerState.isHolding

/-- Every pool step preserves the unfinished-count invariant. -/
lemma poolInv_poolStep (rawCode : Nat → Int) (s : PoolState) (a : PoolAction)
    (h : PoolInv s) : PoolInv (poolStep rawCode s a) := by
  cases a with
  | deq w =>
    simp only [poolStep]
    split
    · next t0 rest hw hq =>
      have hlen := get?_some_lt _ _ _ hw
      have hset := countP_set WorkerState.isHolding s.workers w
        (.holding t0) .idle hlen
      rw [getD_of_get?_some _ _ _ _ hw] at hset
      have h1 : WorkerState.isHolding WorkerState.idle = false := rfl
      have h2 : WorkerState.isHolding (WorkerState.holding t0) = true := rfl
      rw [h1, h2] at hset
      simp at hset
      unfold PoolInv at h ⊢
      simp only [hq, List.length_cons] at h
      simp only []
      omega
    · exact h
  | runTest w =>
    simp only [poolStep]
    split
    · next t0 hw =>
      have hlen := get?_some_lt _ _ _ hw
      have hset := countP_set WorkerState.isHolding s.workers w
        (if rawCode t0 = GPUVerifyErrorCodes.CTRL_C then .draining else .idle)
        (.holding t0) hlen
      rw [getD_of_get?_some _ _ _ _ hw] at hset
      have h2 : WorkerState.isHolding (WorkerState.holding t0) = true := rfl
      have hnew : WorkerState.isHolding
          (if rawCode t0 = GPUVerifyErrorCodes.CTRL_C then
            WorkerState.draining else WorkerState.idle) = false := by
        by_cases hc : rawCode t0 = GPUVerifyErrorCodes.CTRL_C <;> simp [hc] <;> rfl
      rw [h2, hnew] at hset
      simp at hset
      unfold PoolInv at h ⊢
      simp only []
      omega
    · exact h
  | drainOne w =>
    simp only [poolStep]
    split
    · next hw =>
      split
      · next t0 rest hq =>
        unfold PoolInv at h ⊢
        simp only [hq, List.length_cons] at h
        simp only []
        omega
      · next hq =>
        have hlen := get?_some_lt _ _ _ hw
        have hset := countP_set WorkerState.isHolding s.workers w
          .blocked .draining hlen
        rw [getD_of_get?_some _ _ _ _ hw] at hset
        have h1 : WorkerState.isHolding WorkerState.blocked = false := rfl
        have h2 : WorkerState.isHolding WorkerState.draining = false := rfl
        rw [h1, h2] at hset
        simp at hset
        unfold PoolInv at h ⊢
        simp only []
        omega
    · exact h

/-- Ownership is preserved along any schedule. -/
lemma ownership_poolRun (rawCode : Nat → Int) (s : PoolState)
    (acts : List PoolAction) (t : Nat) :
    ownership (poolRun rawCode s acts) t = ownership s t := by
  induction acts generalizing s with
  | nil => rfl
  | cons a acts ih =>
    show ownership (poolRun rawCode (poolStep rawCode s a) acts) t = ownership s t
    rw [ih (poolStep rawCode s a), ownership_poolStep]

/-- The unfinished-count invariant is preserved along any schedule. -/
lemma poolInv_poolRun (rawCode : Nat → Int) (s : PoolState)
    (acts : List PoolAction) (h : PoolInv s) :
    PoolInv (poolRun rawCode s acts) := by
  induction acts generalizing s with
  | nil => exact h
  | cons a acts ih =>
    exact ih (poolStep rawCode s a) (poolInv_poolStep rawCode s a h)

/-- In the freshly started pool each submitted test is owned exactly
once (it sits in the queue) and unsubmitted ids are not owned. -/
lemma ownership_initPool (numThreads numTests t : Nat) :
    ownership (initPool numThreads numTests) t =
      if t < numTests then 1 else 0 := by
  unfold ownership initPool
  simp only [List.count_nil, Nat.add_zero]
  have hw : (List.replicate numThreads WorkerState.idle).countP (holdsTest t) = 0 := by
    rw [List.countP_eq_zero]
    intro ws hws
    rw [List.eq_of_mem_replicate hws]
    simp [holdsTest]
  rw [hw, Nat.add_zero]
  by_cases ht : t < numTests
  · rw [if_pos ht]
    exact List.count_eq_one_of_mem (List.nodup_range numTests)
      (List.mem_range.mpr ht)
  · rw [if_neg ht]
    exact List.count_eq_zero_of_not_mem (fun hc => ht (List.mem_range.mp hc))

/-- The freshly started pool satisfies the unfinished-count
invariant. -/
lemma poolInv_initPool (numThreads numTests : Nat) :
    PoolInv (initPool numThreads numTests) := by
  unfold PoolInv initPool
  simp only [List.length_range]
  have hw : (List.replicate numThreads WorkerState.idle).countP
      WorkerState.isHolding = 0 := by
    rw [List.countP_eq_zero]
    intro ws hws
    rw [List.eq_of_mem_replicate hws]
    simp [WorkerState.isHolding]
  rw [hw]
  rfl

/-- C9 (amended): under any schedule of worker actions, no TestCase is
ever executed more than once; a TestCase drained after a worker
observed the operator-interrupt code is never executed at all; and when
`waitForCompletion` can return (unfinished count zero) every submitted
TestCase was either executed exactly once or drained exactly once —
but between the interrupt observation and the drain, other workers may
still dequeue and execute TestCases that were queued at observation
time, so the drained set need not cover all of the then-queued tests. -/
theorem claim_C9 (numThreads numTests : Nat) (rawCode : Nat → Int)
    (acts : List PoolAction) (t : Nat) :
    ((poolRun rawCode (initPool numThreads numTests) acts).executed.count t ≤ 1)
    ∧ (t ∈ (poolRun rawCode (initPool numThreads numTests) acts).drained →
        (poolRun rawCode (initPool numThreads numTests) acts).executed.count t = 0)
    ∧ ((poolRun rawCode (initPool numThreads numTests) acts).unfinished = 0 →
        t < numTests →
        (poolRun rawCode (initPool numThreads numTests) acts).executed.count t +
          (poolRun rawCode (initPool numThreads numTests) acts).drained.count t
          = 1) := by
  have hown := ownership_poolRun rawCode (initPool numThreads numTests) acts t
  rw [ownership_initPool] at hown
  have hinv := poolInv_poolRun rawCode (initPool numThreads numTests) acts
    (poolInv_initPool numThreads numTests)
  unfold ownership at hown
  unfold PoolInv at hinv
  refine ⟨?_, ?_, ?_⟩
  · by_cases ht : t < numTests <;> simp only [ht, if_pos, if_neg, if_true,
      if_false] at hown <;> omega
  · intro hd
    have hpos : 0 < (poolRun rawCode (initPool numThreads numTests)
        acts).drained.count t := List.count_pos_iff.mpr hd
    by_cases ht : t < numTests <;> simp only [ht, if_true, if_false] at hown <;>
      omega
  · intro hu ht
    have hq0 : (poolRun rawCode (initPool numThreads numTests)
        acts).queue.length = 0 := by omega
    have hcnt0 : (poolRun rawCode (initPool numThreads numTests)
        acts).workers.countP WorkerState.isHolding = 0 := by omega
    have hqc : (poolRun rawCode (initPool numThreads numTests)
        acts).queue.count t = 0 := by
      have := List.count_le_length t
        (poolRun rawCode (initPool numThreads numTests) acts).queue
      omega
    have hmono : (poolRun rawCode (initPool numThreads numTests)
        acts).workers.countP (holdsTest t) ≤
        (poolRun rawCode (initPool numThreads numTests)
          acts).workers.countP WorkerState.isHolding := by
      apply List.countP_mono_left
      intro ws _ hws
      cases ws with
      | holding t1 => rfl
      | idle => exact absurd hws (by simp [holdsTest])
      | draining => exact absurd hws (by simp [holdsTest])
      | blocked => exact absurd hws (by simp [holdsTest])
    simp only [ht, if_true] at hown
    omega

/-- Exit-code oracle for the C9 scenario: test 0 is interrupted by the
operator, every other test succeeds. -/
def c9raw (tid : Nat) : Int :=
  if tid = 0 then GPUVerifyErrorCodes.CTRL_C else GPUVerifyErrorCodes.SUCCESS

/-- Schedule prefix up to the interrupt observation: worker 0 dequeues
and runs test 0. -/
def c9actsObserve : List PoolAction := [.deq 0, .runTest 0]

/-- Full schedule: after worker 0 observes the interrupt, worker 1
dequeues and runs test 1, and worker 0 then drains the queue. -/
def c9actsFull : List PoolAction :=
  [.deq 0, .runTest 0, .deq 1, .runTest 1, .drainOne 0, .drainOne 0]

/-- Counterexample to C9: after worker 0 observes the operator
interrupt (it is in draining mode with tests 1 and 2 still queued),
test 1 is nevertheless executed by worker 1; only test 2 is drained,
although the queue is fully drained and the unfinished count reaches
zero. -/
theorem claim_C9_counterexample :
    (poolRun c9raw (initPool 2 3) c9actsObserve).workers =
      [WorkerState.draining, WorkerState.idle]
    ∧ (poolRun c9raw (initPool 2 3) c9actsObserve).queue = [1, 2]
    ∧ (poolRun c9raw (initPool 2 3) c9actsFull).unfinished = 0
    ∧ (poolRun c9raw (initPool 2 3) c9actsFull).executed = [0, 1]
    ∧ (poolRun c9raw (initPool 2 3) c9actsFull).drained = [2] :=
  ⟨rfl, rfl, rfl, rfl, rfl⟩

/-- Witness for C9: in the concrete schedule, the drained test 2 ends
unexecuted. -/
theorem claim_C9_witness :
    (poolRun c9raw (initPool 2 3) c9actsFull).executed.count 2 = 0 :=
  (claim_C9 2 3 c9raw c9actsFull 2).2.1 (by decide)

end GVTester
